import Mathlib

/-!
Verification of the AIT persistence layer and command executor
(src/App/src-tauri/src/commands.rs).

Shallow embedding conventions:

* The three process-global mutex-guarded caches (SETTINGS, CHATS, FOLDERS,
  commands.rs lines 12-16) together with the persisted JSON files become
  explicit state records (SettingsState, ChatsState, FoldersState); each
  Tauri command becomes a pure function from state to (result, new state).
* Disk contents are modelled as Option (Option v): none means the file does
  not exist, some none means it exists but cannot be read or is not valid
  JSON of the expected shape, some (some v) means it parses as v.  For
  settings, v is a PartialAppSettings: a JSON object in which each field of
  the AppSettings shape may individually be present or absent.
* Disk writes can fail; fs::write failure is modelled by a Bool argument
  diskOk together with the underlying OS message ioMsg.  Path resolution
  (get_settings_path etc.) is abstracted as succeeding; its failure branches
  only produce the same cache-updated/no-write outcomes already covered by
  the diskOk = false case.
* Rust u64 timestamps become Nat: only comparisons are performed on them,
  never arithmetic, so no modular reduction is involved.
* HashMap<String, bool> becomes an association list List (String × Bool);
  the claims never depend on map lookup, only on whole-value equality and
  field presence during deserialization.
* Vec::sort_by(|a, b| b.timestamp.cmp(&a.timestamp)) is a stable sort by
  descending timestamp; it is embedded as the stable insertion sort
  sortByTsDesc, which computes the same sequence as any stable sort under
  that comparator.
* serde derive semantics for AppSettings (commands.rs lines 31-52): the
  struct has no serde(default) attributes and no Option fields, so
  deserialization succeeds exactly when every field is present
  (parseAppSettings).
* Process launching (Command::output) is modelled by an oracle function
  run : String → List String → ProcOutput supplying the child process
  outcome for a given program and argument list; the spawn-failure branch
  (lines 665-677) is outside the claims, which quantify over launched
  processes.
-/

namespace AIT

/-- Chat message record (commands.rs lines 72-76). -/
structure ChatMessage where
  sender : String
  content : String
deriving DecidableEq, Repr

/-- Saved chat record (commands.rs lines 79-86). -/
structure RustSavedChat where
  id : String
  timestamp : Nat
  mode : String
  messages : List ChatMessage
  title : Option String
deriving DecidableEq, Repr

/-- Folder record (commands.rs lines 89-96). -/
structure RustFolder where
  id : String
  name : String
  timestamp : Nat
  parent_id : Option String
  is_expanded : Bool
deriving DecidableEq, Repr

/-- Application settings record (commands.rs lines 31-52). -/
structure AppSettings where
  openai_api_key : String
  claude_api_key : String
  open_router_api_key : String
  brave_search_api_key : String
  walkthrough_provider : String
  walkthrough_model : String
  action_provider : String
  action_model : String
  auto_approve_tools : Bool
  walkthrough_tools : List (String × Bool)
  action_tools : List (String × Bool)
  auto_approve_walkthrough : List (String × Bool)
  auto_approve_action : List (String × Bool)
  whitelisted_commands : List String
  blacklisted_commands : List String
  theme : String
deriving DecidableEq, Repr

/-- Built-in default settings (create_default_settings, commands.rs
lines 166-201). -/
def create_default_settings : AppSettings :=
  { openai_api_key := ""
    claude_api_key := ""
    open_router_api_key := ""
    brave_search_api_key := ""
    walkthrough_provider := "openai"
    walkthrough_model := "gpt-4o"
    action_provider := "openai"
    action_model := "gpt-4o"
    auto_approve_tools := false
    walkthrough_tools := [("command", true), ("web_search", true)]
    action_tools := [("command", true), ("web_search", true)]
    auto_approve_walkthrough := [("command", false), ("web_search", false)]
    auto_approve_action := [("command", false), ("web_search", false)]
    whitelisted_commands := []
    blacklisted_commands := []
    theme := "system" }

/-- A JSON object of the AppSettings shape in which each field may be
present or absent.  This is the parse-level view of settings.json that
serde_json::from_str::<AppSettings> is applied to. -/
structure PartialAppSettings where
  openai_api_key : Option String
  claude_api_key : Option String
  open_router_api_key : Option String
  brave_search_api_key : Option String
  walkthrough_provider : Option String
  walkthrough_model : Option String
  action_provider : Option String
  action_model : Option String
  auto_approve_tools : Option Bool
  walkthrough_tools : Option (List (String × Bool))
  action_tools : Option (List (String × Bool))
  auto_approve_walkthrough : Option (List (String × Bool))
  auto_approve_action : Option (List (String × Bool))
  whitelisted_commands : Option (List String)
  blacklisted_commands : Option (List String)
  theme : Option (String)
deriving DecidableEq, Repr

/-- Deserialization of AppSettings per the serde derive on commands.rs
lines 31-52: the struct carries no serde(default) attribute and has no
Option fields, so parsing succeeds exactly when every field is present
in the JSON object, and fails (missing-field error) otherwise. -/
def parseAppSettings (p : PartialAppSettings) : Option AppSettings :=
  match p.openai_api_key, p.claude_api_key, p.open_router_api_key,
      p.brave_search_api_key, p.walkthrough_provider, p.walkthrough_model,
      p.action_provider, p.action_model, p.auto_approve_tools,
      p.walkthrough_tools, p.action_tools, p.auto_approve_walkthrough,
      p.auto_approve_action, p.whitelisted_commands, p.blacklisted_commands,
      p.theme with
  | some a, some b, some c, some d, some e, some f, some g, some h, some i,
    some j, some k, some l, some m, some n, some o, some q =>
    some { openai_api_key := a
           claude_api_key := b
           open_router_api_key := c
           brave_search_api_key := d
           walkthrough_provider := e
           walkthrough_model := f
           action_provider := g
           action_model := h
           auto_approve_tools := i
           walkthrough_tools := j
           action_tools := k
           auto_approve_walkthrough := l
           auto_approve_action := m
           whitelisted_commands := n
           blacklisted_commands := o
           theme := q }
  | _, _, _, _, _, _, _, _, _, _, _, _, _, _, _, _ => none

/-- Serialization of AppSettings (serde_json::to_string_pretty) at the
field-presence level: every field is written out. -/
def AppSettings.toPartial (v : AppSettings) : PartialAppSettings :=
  { openai_api_key := some v.openai_api_key
    claude_api_key := some v.claude_api_key
    open_router_api_key := some v.open_router_api_key
    brave_search_api_key := some v.brave_search_api_key
    walkthrough_provider := some v.walkthrough_provider
    walkthrough_model := some v.walkthrough_model
    action_provider := some v.action_provider
    action_model := some v.action_model
    auto_approve_tools := some v.auto_approve_tools
    walkthrough_tools := some v.walkthrough_tools
    action_tools := some v.action_tools
    auto_approve_walkthrough := some v.auto_approve_walkthrough
    auto_approve_action := some v.auto_approve_action
    whitelisted_commands := some v.whitelisted_commands
    blacklisted_commands := some v.blacklisted_commands
    theme := some v.theme }

/-- Predicate: every field of the JSON object is present. -/
def PartialAppSettings.complete (p : PartialAppSettings) : Prop :=
  p.openai_api_key.isSome ∧ p.claude_api_key.isSome ∧
  p.open_router_api_key.isSome ∧ p.brave_search_api_key.isSome ∧
  p.walkthrough_provider.isSome ∧ p.walkthrough_model.isSome ∧
  p.action_provider.isSome ∧ p.action_model.isSome ∧
  p.auto_approve_tools.isSome ∧ p.walkthrough_tools.isSome ∧
  p.action_tools.isSome ∧ p.auto_approve_walkthrough.isSome ∧
  p.auto_approve_action.isSome ∧ p.whitelisted_commands.isSome ∧
  p.blacklisted_commands.isSome ∧ p.theme.isSome

instance (p : PartialAppSettings) : Decidable p.complete := by
  unfold PartialAppSettings.complete; infer_instance

/-- Upsert keyed on id equality: the position/replace-or-push logic of
save_chat (commands.rs lines 379-388) and save_folder (lines 503-514).
The first record whose id equals the id of x is replaced in place;
if none matches, x is appended at the end. -/
def upsertBy {α : Type} (idOf : α → String) (x : α) : List α → List α
  | [] => [x]
  | y :: ys => if idOf y = idOf x then x :: ys else y :: upsertBy idOf x ys

/-- Insertion step of the stable descending-timestamp sort: x goes in
front of the first element whose timestamp is at most the timestamp
of x. -/
def insertByTsDesc {α : Type} (ts : α → Nat) (x : α) : List α → List α
  | [] => [x]
  | y :: ys => if ts y ≤ ts x then x :: y :: ys else y :: insertByTsDesc ts x ys

/-- Stable sort by timestamp descending, embedding
sort_by(|a, b| b.timestamp.cmp(&a.timestamp)) (commands.rs lines 366,
391, 489, 517): Rust slice sorts are stable, and a stable sort under
that comparator computes exactly this insertion sort. -/
def sortByTsDesc {α : Type} (ts : α → Nat) : List α → List α
  | [] => []
  | x :: xs => insertByTsDesc ts x (sortByTsDesc ts xs)

/-- Collection file contents as seen by the load paths (commands.rs
lines 339-359 and 462-482): a missing file or an unreadable/unparsable
file degrades to the empty list. -/
def loadListFile {β : Type} : Option (Option (List β)) → List β
  | some (some l) => l
  | some none => []
  | none => []

/-- Process-global state backing the chats commands: the CHATS cache
(commands.rs line 14) plus the chats.json contents. -/
structure ChatsState where
  cache : List RustSavedChat
  file : Option (Option (List RustSavedChat))
deriving DecidableEq, Repr

/-- Process-global state backing the folders commands: the FOLDERS cache
(commands.rs line 16) plus the folders.json contents. -/
structure FoldersState where
  cache : List RustFolder
  file : Option (Option (List RustFolder))
deriving DecidableEq, Repr

/-- Process-global state backing the settings commands: the SETTINGS cache
(commands.rs line 12, an Option) plus the settings.json contents. -/
structure SettingsState where
  cache : Option AppSettings
  file : Option (Option PartialAppSettings)
deriving DecidableEq, Repr

/-- Settings load path of get_settings (commands.rs lines 267-287):
missing file, unreadable file, or a parse failure all fall back to the
defaults; a successful parse is returned as is. -/
def loadSettingsFile : Option (Option PartialAppSettings) → AppSettings
  | none => create_default_settings
  | some none => create_default_settings
  | some (some p) => (parseAppSettings p).getD create_default_settings

/-- Embedding of get_settings (commands.rs lines 244-293).  Returns the
settings, the new state, and whether the disk loader ran (false on a
cache hit).  A cache miss loads from the file (defaulting as in
loadSettingsFile) and stores the result in the cache. -/
def get_settings (s : SettingsState) : AppSettings × SettingsState × Bool :=
  match s.cache with
  | some v => (v, s, false)
  | none =>
    let v := loadSettingsFile s.file
    (v, { cache := some v, file := s.file }, true)

/-- Embedding of save_settings (commands.rs lines 297-315): the cache is
overwritten first; the file write then either succeeds or fails with the
underlying OS message. -/
def save_settings (v : AppSettings) (diskOk : Bool) (ioMsg : String)
    (s : SettingsState) : Except String Unit × SettingsState :=
  if diskOk then
    (Except.ok (), { cache := some v, file := some (some v.toPartial) })
  else
    (Except.error ("Failed to write settings file: " ++ ioMsg),
     { cache := some v, file := s.file })

/-- Embedding of get_all_chats (commands.rs lines 319-368).  A non-empty
cache is returned verbatim without touching disk; otherwise the file is
loaded, the UNSORTED loaded list is stored in the cache (line 362), and a
sorted copy is returned (lines 365-367).  The Bool records whether the
disk loader ran. -/
def get_all_chats (s : ChatsState) : List RustSavedChat × ChatsState × Bool :=
  if s.cache.isEmpty then
    let chats := loadListFile s.file
    (sortByTsDesc (fun c => c.timestamp) chats,
     { cache := chats, file := s.file }, true)
  else
    (s.cache, s, false)

/-- Embedding of save_chat (commands.rs lines 372-406): upsert by id into
the cache, re-sort the cache descending by timestamp, then write the whole
cache to disk; a failed write reports an error but the cache keeps the
new value. -/
def save_chat (chat : RustSavedChat) (diskOk : Bool) (ioMsg : String)
    (s : ChatsState) : Except String Unit × ChatsState :=
  let newCache :=
    sortByTsDesc (fun c => c.timestamp) (upsertBy (fun c => c.id) chat s.cache)
  if diskOk then
    (Except.ok (), { cache := newCache, file := some (some newCache) })
  else
    (Except.error ("Failed to write chats file: " ++ ioMsg),
     { cache := newCache, file := s.file })

/-- Embedding of delete_chat (commands.rs lines 410-438): retain every
record whose id differs; if the length is unchanged, fail with the
not-found message before any write; otherwise persist the reduced cache.
The trailing Bool records whether a disk write was attempted. -/
def delete_chat (chatId : String) (diskOk : Bool) (ioMsg : String)
    (s : ChatsState) : Except String Unit × ChatsState × Bool :=
  let newCache := s.cache.filter (fun c => decide (c.id ≠ chatId))
  if newCache.length = s.cache.length then
    (Except.error ("Chat with ID " ++ chatId ++ " not found"),
     { cache := newCache, file := s.file }, false)
  else if diskOk then
    (Except.ok (), { cache := newCache, file := some (some newCache) }, true)
  else
    (Except.error ("Failed to write chats file after deletion: " ++ ioMsg),
     { cache := newCache, file := s.file }, true)

/-- Embedding of get_all_folders (commands.rs lines 442-492); identical
shape to get_all_chats, including the unsorted cache store (line 485) and
the sorted return copy (lines 488-491). -/
def get_all_folders (s : FoldersState) : List RustFolder × FoldersState × Bool :=
  if s.cache.isEmpty then
    let folders := loadListFile s.file
    (sortByTsDesc (fun f => f.timestamp) folders,
     { cache := folders, file := s.file }, true)
  else
    (s.cache, s, false)

/-- Embedding of save_folder (commands.rs lines 496-558); identical shape
to save_chat. -/
def save_folder (folder : RustFolder) (diskOk : Bool) (ioMsg : String)
    (s : FoldersState) : Except String Unit × FoldersState :=
  let newCache :=
    sortByTsDesc (fun f => f.timestamp) (upsertBy (fun f => f.id) folder s.cache)
  if diskOk then
    (Except.ok (), { cache := newCache, file := some (some newCache) })
  else
    (Except.error ("Failed to write folders file: " ++ ioMsg),
     { cache := newCache, file := s.file })

/-- Embedding of delete_folder (commands.rs lines 562-616); identical shape
to delete_chat. -/
def delete_folder (folderId : String) (diskOk : Bool) (ioMsg : String)
    (s : FoldersState) : Except String Unit × FoldersState × Bool :=
  let newCache := s.cache.filter (fun f => decide (f.id ≠ folderId))
  if newCache.length = s.cache.length then
    (Except.error ("Folder with ID " ++ folderId ++ " not found"),
     { cache := newCache, file := s.file }, false)
  else if diskOk then
    (Except.ok (), { cache := newCache, file := some (some newCache) }, true)
  else
    (Except.error ("Failed to write folders file after deletion: " ++ ioMsg),
     { cache := newCache, file := s.file }, true)

/-- Outcome of an awaited child process: captured stdout and stderr
(lossily decoded), whether the exit status was successful, and the Display
rendering of the exit status used in the no-output failure message. -/
structure ProcOutput where
  stdout : String
  stderr : String
  success : Bool
  status_display : String
deriving DecidableEq, Repr

/-- Outcome classification of execute_command (commands.rs lines 645-663),
in source order: non-empty stderr with a successful status yields stdout
plus a Warnings section; non-empty stderr with a failed status yields a
labelled stderr error; empty stdout with a failed status (and no stderr)
yields an exit-code error; everything else yields stdout. -/
def classifyOutput (out : ProcOutput) : Except String String :=
  if out.stderr ≠ "" then
    if out.success then
      Except.ok (out.stdout ++ "\n\nWarnings:\n" ++ out.stderr)
    else
      Except.error ("Command failed with error:\n" ++ out.stderr)
  else if out.stdout = "" ∧ out.success = false then
    Except.error ("Command failed with no output. Exit code: " ++
      out.status_display)
  else
    Except.ok out.stdout

/-- Accumulator worker for whitespace splitting: cur collects the
characters of the token being read. -/
def splitWsGo : List Char → List Char → List String
  | [], cur => if cur.isEmpty then [] else [String.mk cur]
  | c :: cs, cur =>
    if c.isWhitespace then
      (if cur.isEmpty then [] else [String.mk cur]) ++ splitWsGo cs []
    else
      splitWsGo cs (cur ++ [c])

/-- Embedding of str::split_whitespace (commands.rs line 626): split on
runs of whitespace, producing no empty tokens and interpreting no quoting
or escaping. -/
def splitWhitespace (s : String) : List String := splitWsGo s.toList []

/-- Embedding of execute_command (commands.rs lines 620-679): tokenize the
command line by whitespace; with no program token, fail with the empty
command error and launch nothing; otherwise launch the first token with
the remaining tokens as arguments (the oracle run supplies the child
process outcome) and classify the outcome.  The second component records
what was launched: none when no process was spawned. -/
def execute_command (command : String)
    (run : String → List String → ProcOutput) :
    Except String String × Option (String × List String) :=
  match splitWhitespace command with
  | [] => (Except.error "Empty command", none)
  | program :: args =>
    (classifyOutput (run program args), some (program, args))

/-- Concrete chat fixture with the older timestamp. -/
def exChatA : RustSavedChat :=
  { id := "a", timestamp := 1, mode := "action", messages := [], title := none }

/-- Concrete chat fixture with the newer timestamp. -/
def exChatB : RustSavedChat :=
  { id := "b", timestamp := 2, mode := "walkthrough", messages := [],
    title := some "t" }

/-- Concrete folder fixture with the older timestamp. -/
def exFolderA : RustFolder :=
  { id := "fa", name := "alpha", timestamp := 1, parent_id := none,
    is_expanded := false }

/-- Concrete folder fixture with the newer timestamp. -/
def exFolderB : RustFolder :=
  { id := "fb", name := "beta", timestamp := 2, parent_id := some "fa",
    is_expanded := true }

/-- Concrete settings JSON object with the openai key present but the
theme field absent; every other field carries its default value. -/
def exPartialSettings : PartialAppSettings :=
  { openai_api_key := some "sk-test"
    claude_api_key := some ""
    open_router_api_key := some ""
    brave_search_api_key := some ""
    walkthrough_provider := some "openai"
    walkthrough_model := some "gpt-4o"
    action_provider := some "openai"
    action_model := some "gpt-4o"
    auto_approve_tools := some false
    walkthrough_tools := some [("command", true), ("web_search", true)]
    action_tools := some [("command", true), ("web_search", true)]
    auto_approve_walkthrough := some [("command", false), ("web_search", false)]
    auto_approve_action := some [("command", false), ("web_search", false)]
    whitelisted_commands := some []
    blacklisted_commands := some []
    theme := none }

/-- Concrete process oracle: every launch prints hello and exits
successfully. -/
def exRun : String → List String → ProcOutput :=
  fun _ _ =>
    { stdout := "hello", stderr := "", success := true,
      status_display := "exit status: 0" }

/-- Every member of an upserted list is an old member or the new item. -/
theorem mem_upsertBy {α : Type} (idOf : α → String) (x : α) (l : List α)
    (z : α) (hz : z ∈ upsertBy idOf x l) : z ∈ l ∨ z = x := by
  induction l with
  | nil =>
    simp [upsertBy] at hz
    exact Or.inr hz
  | cons y ys ih =>
    by_cases h : idOf y = idOf x
    · simp [upsertBy, h] at hz
      rcases hz with hz | hz
      · exact Or.inr hz
      · exact Or.inl (List.mem_cons_of_mem y hz)
    · simp [upsertBy, h] at hz
      rcases hz with hz | hz
      · exact Or.inl (hz ▸ List.mem_cons_self y ys)
      · rcases ih hz with h1 | h1
        · exact Or.inl (List.mem_cons_of_mem y h1)
        · exact Or.inr h1

/-- The upserted item is a member of the upserted list. -/
theorem self_mem_upsertBy {α : Type} (idOf : α → String) (x : α)
    (l : List α) : x ∈ upsertBy idOf x l := by
  induction l with
  | nil => simp [upsertBy]
  | cons y ys ih =>
    by_cases h : idOf y = idOf x
    · simp [upsertBy, h]
    · simp [upsertBy, h]
      exact Or.inr ih

/-- On a list with pairwise distinct ids, upserting leaves exactly one
record carrying the id of the upserted item. -/
theorem countP_upsertBy {α : Type} (idOf : α → String) (x : α) (l : List α)
    (h : l.Pairwise (fun a b => idOf a ≠ idOf b)) :
    List.countP (fun y => decide (idOf y = idOf x)) (upsertBy idOf x l) = 1 := by
  induction l with
  | nil => simp [upsertBy, List.countP_cons]
  | cons y ys ih =>
    rw [List.pairwise_cons] at h
    obtain ⟨h1, h2⟩ := h
    by_cases hy : idOf y = idOf x
    · have hz : List.countP (fun z => decide (idOf z = idOf x)) ys = 0 := by
        rw [List.countP_eq_zero]
        intro z hzmem
        simp only [decide_eq_true_eq]
        intro hzx
        exact h1 z hzmem (hy.trans hzx.symm)
      simp [upsertBy, hy, List.countP_cons, hz]
    · simp [upsertBy, hy, List.countP_cons, ih h2]

/-- On a list with pairwise distinct ids, every record of the upserted
list that carries the id of the upserted item is that item. -/
theorem eq_of_mem_upsertBy {α : Type} (idOf : α → String) (x : α)
    (l : List α) (h : l.Pairwise (fun a b => idOf a ≠ idOf b)) (z : α)
    (hz : z ∈ upsertBy idOf x l) (hid : idOf z = idOf x) : z = x := by
  induction l with
  | nil =>
    simp [upsertBy] at hz
    exact hz
  | cons y ys ih =>
    rw [List.pairwise_cons] at h
    obtain ⟨h1, h2⟩ := h
    by_cases hy : idOf y = idOf x
    · simp [upsertBy, hy] at hz
      rcases hz with hz | hz
      · exact hz
      · exact absurd (hy.trans hid.symm) (h1 z hz)
    · simp [upsertBy, hy] at hz
      rcases hz with hz | hz
      · exact absurd (hz ▸ hid) hy
      · exact ih h2 hz

/-- Upserting preserves pairwise distinctness of ids. -/
theorem pairwise_upsertBy {α : Type} (idOf : α → String) (x : α)
    (l : List α) (h : l.Pairwise (fun a b => idOf a ≠ idOf b)) :
    (upsertBy idOf x l).Pairwise (fun a b => idOf a ≠ idOf b) := by
  induction l with
  | nil => simp [upsertBy]
  | cons y ys ih =>
    rw [List.pairwise_cons] at h
    obtain ⟨h1, h2⟩ := h
    by_cases hy : idOf y = idOf x
    · simp only [upsertBy, hy, if_pos]
      rw [List.pairwise_cons]
      refine ⟨fun z hz => ?_, h2⟩
      exact fun hxz => h1 z hz (hy.trans hxz)
    · simp only [upsertBy, hy, if_neg, ite_false]
      rw [List.pairwise_cons]
      refine ⟨fun z hz => ?_, ih h2⟩
      rcases mem_upsertBy idOf x ys z hz with hmem | rfl
      · exact h1 z hmem
      · exact fun hyx => hy hyx

/-- Inserting permutes to consing. -/
theorem insertByTsDesc_perm {α : Type} (ts : α → Nat) (x : α) (l : List α) :
    (insertByTsDesc ts x l).Perm (x :: l) := by
  induction l with
  | nil => simp [insertByTsDesc]
  | cons y ys ih =>
    by_cases h : ts y ≤ ts x
    · simp [insertByTsDesc, h]
    · simp only [insertByTsDesc, h, if_neg, ite_false]
      exact (ih.cons y).trans (List.Perm.swap x y ys)

/-- The descending sort is a permutation of its input. -/
theorem sortByTsDesc_perm {α : Type} (ts : α → Nat) (l : List α) :
    (sortByTsDesc ts l).Perm l := by
  induction l with
  | nil => simp [sortByTsDesc]
  | cons x xs ih =>
    exact (insertByTsDesc_perm ts x (sortByTsDesc ts xs)).trans (ih.cons x)

/-- Inserting into a descending-sorted list keeps it descending. -/
theorem pairwise_insertByTsDesc {α : Type} (ts : α → Nat) (x : α)
    (l : List α) (h : l.Pairwise (fun a b => ts b ≤ ts a)) :
    (insertByTsDesc ts x l).Pairwise (fun a b => ts b ≤ ts a) := by
  induction l with
  | nil => simp [insertByTsDesc]
  | cons y ys ih =>
    rw [List.pairwise_cons] at h
    obtain ⟨h1, h2⟩ := h
    by_cases hc : ts y ≤ ts x
    · simp only [insertByTsDesc, hc, if_pos]
      rw [List.pairwise_cons]
      refine ⟨fun z hz => ?_, List.pairwise_cons.mpr ⟨h1, h2⟩⟩
      rcases List.mem_cons.mp hz with rfl | hz
      · exact hc
      · exact (h1 z hz).trans hc
    · simp only [insertByTsDesc, hc, if_neg, ite_false]
      rw [List.pairwise_cons]
      refine ⟨fun z hz => ?_, ih h2⟩
      rcases List.mem_cons.mp ((insertByTsDesc_perm ts x ys).mem_iff.mp hz) with rfl | hz
      · exact Nat.le_of_lt (Nat.lt_of_not_le hc)
      · exact h1 z hz

/-- The descending sort output is descending. -/
theorem pairwise_sortByTsDesc {α : Type} (ts : α → Nat) (l : List α) :
    (sortByTsDesc ts l).Pairwise (fun a b => ts b ≤ ts a) := by
  induction l with
  | nil => simp [sortByTsDesc]
  | cons x xs ih => exact pairwise_insertByTsDesc ts x (sortByTsDesc ts xs) ih

/-- Whatever the write outcome, save_chat leaves the sorted upserted list
in the cache. -/
theorem save_chat_cache (chat : RustSavedChat) (d : Bool) (m : String)
    (s : ChatsState) :
    ((save_chat chat d m s).2).cache =
      sortByTsDesc (fun c => c.timestamp)
        (upsertBy (fun c => c.id) chat s.cache) := by
  cases d <;> rfl

/-- Whatever the write outcome, save_folder leaves the sorted upserted
list in the cache. -/
theorem save_folder_cache (folder : RustFolder) (d : Bool) (m : String)
    (s : FoldersState) :
    ((save_folder folder d m s).2).cache =
      sortByTsDesc (fun f => f.timestamp)
        (upsertBy (fun f => f.id) folder s.cache) := by
  cases d <;> rfl

/-- Whatever branch delete_chat takes, the filtered list is left in the
cache. -/
theorem delete_chat_cache (chatId : String) (d : Bool) (m : String)
    (s : ChatsState) :
    ((delete_chat chatId d m s).2.1).cache =
      s.cache.filter (fun c => decide (c.id ≠ chatId)) := by
  simp only [delete_chat]
  by_cases hlen :
      (List.filter (fun c => decide (c.id ≠ chatId)) s.cache).length =
        s.cache.length
  · rw [if_pos hlen]
  · rw [if_neg hlen]
    cases d <;> rfl

/-- Whatever branch delete_folder takes, the filtered list is left in the
cache. -/
theorem delete_folder_cache (folderId : String) (d : Bool) (m : String)
    (s : FoldersState) :
    ((delete_folder folderId d m s).2.1).cache =
      s.cache.filter (fun f => decide (f.id ≠ folderId)) := by
  simp only [delete_folder]
  by_cases hlen :
      (List.filter (fun f => decide (f.id ≠ folderId)) s.cache).length =
        s.cache.length
  · rw [if_pos hlen]
  · rw [if_neg hlen]
    cases d <;> rfl

/-- A successful settings parse can only happen when every field of the
JSON object is present. -/
theorem complete_of_parse (p : PartialAppSettings) (v : AppSettings)
    (h : parseAppSettings p = some v) : p.complete := by
  unfold parseAppSettings at h
  split at h
  · rename_i a b c d e f g hh i j k l m n o q
    unfold PartialAppSettings.complete
    simp_all
  · exact absurd h (by simp)

/-- Upserting then stably sorting a distinct-id list leaves exactly one
record with the upserted id, equal to the upserted item, and keeps ids
pairwise distinct.  This is the cache transformation shared by save_chat
and save_folder. -/
theorem saveStep_props {α : Type} (idOf : α → String) (ts : α → Nat)
    (x : α) (l : List α) (h : l.Pairwise (fun a b => idOf a ≠ idOf b)) :
    List.countP (fun y => decide (idOf y = idOf x))
        (sortByTsDesc ts (upsertBy idOf x l)) = 1 ∧
    (∀ z ∈ sortByTsDesc ts (upsertBy idOf x l), idOf z = idOf x → z = x) ∧
    (sortByTsDesc ts (upsertBy idOf x l)).Pairwise
      (fun a b => idOf a ≠ idOf b) := by
  have hperm := sortByTsDesc_perm ts (upsertBy idOf x l)
  refine ⟨?_, ?_, ?_⟩
  · rw [hperm.countP_eq]
    exact countP_upsertBy idOf x l h
  · intro z hz hid
    exact eq_of_mem_upsertBy idOf x l h z (hperm.mem_iff.mp hz) hid
  · exact (List.Perm.pairwise_iff (fun hxy heq => hxy heq.symm) hperm).mpr
      (pairwise_upsertBy idOf x l h)

/-- Filtering out one id keeps exactly the records with other ids, in
order.  This is the cache transformation shared by delete_chat and
delete_folder. -/
theorem filterById_props {α : Type} [DecidableEq α] (idOf : α → String)
    (cid : String) (l : List α) :
    (∀ x ∈ l.filter (fun y => decide (idOf y ≠ cid)), idOf x ≠ cid) ∧
    (l.filter (fun y => decide (idOf y ≠ cid))).Sublist l ∧
    (∀ x, idOf x ≠ cid →
      List.countP (fun y => decide (y = x))
          (l.filter (fun y => decide (idOf y ≠ cid))) =
        List.countP (fun y => decide (y = x)) l) := by
  refine ⟨?_, List.filter_sublist l, ?_⟩
  · intro x hx
    have hmem := (List.mem_filter.mp hx).2
    simpa using hmem
  · intro x hx
    rw [List.countP_filter]
    apply List.countP_congr
    intro y hy
    by_cases hxy : y = x
    · subst hxy
      simp [hx]
    · simp [hxy]

/-- C9: a command line whose whitespace split yields no token fails
immediately with the empty-command error and launches no process; for
every other command line the program is the first whitespace-separated
token and the arguments are the remaining tokens, with no quoting or
escaping interpreted. -/
theorem execute_command_tokenization
    (cmd : String) (run : String → List String → ProcOutput)
    (p : String) (args : List String) :
    (splitWhitespace cmd = [] →
      execute_command cmd run = (Except.error "Empty command", none)) ∧
    (splitWhitespace cmd = p :: args →
      execute_command cmd run =
        (classifyOutput (run p args), some (p, args))) := by
  constructor
  · intro h
    simp [execute_command, h]
  · intro h
    simp [execute_command, h]

/-- Witness for C9 at the empty command line and at a two-token command
line separated by a run of whitespace. -/
theorem execute_command_tokenization_witness :
    execute_command "" exRun = (Except.error "Empty command", none) ∧
    execute_command "echo  hi" exRun =
      (classifyOutput (exRun "echo" ["hi"]), some ("echo", ["hi"])) :=
  ⟨(execute_command_tokenization "" exRun "x" []).1 (by decide),
   (execute_command_tokenization "echo  hi" exRun "echo" ["hi"]).2 (by decide)⟩

/-- C8 counterexample: with empty stdout, stderr boom and a failed exit
status, the returned failure message is the labelled string and not bare
stderr, so the failure message is not stderr as the claim states. -/
theorem classify_stderr_label_counterexample :
    (execute_command "prog"
        (fun _ _ =>
          { stdout := "", stderr := "boom", success := false,
            status_display := "exit status: 1" })).1 =
      Except.error ("Command failed with error:\n" ++ "boom") ∧
    ("Command failed with error:\n" ++ "boom") ≠ "boom" := by
  exact ⟨by rfl, by decide⟩

/-- C8 (amended): the outcome of a launched process is classified in
priority order: non-empty stderr with success yields stdout concatenated
with a labelled warnings section containing stderr; non-empty stderr with
failure yields a failure whose message is stderr prefixed with the label
Command failed with error; empty stdout with failure and empty stderr
yields a failure stating the exit code; every other outcome yields
success with stdout. -/
theorem classify_outcome_priority
    (out : ProcOutput) (cmd : String)
    (run : String → List String → ProcOutput)
    (p : String) (args : List String)
    (hsplit : splitWhitespace cmd = p :: args) :
    (execute_command cmd run).1 = classifyOutput (run p args) ∧
    (out.stderr ≠ "" → out.success = true →
      classifyOutput out =
        Except.ok (out.stdout ++ "\n\nWarnings:\n" ++ out.stderr)) ∧
    (out.stderr ≠ "" → out.success = false →
      classifyOutput out =
        Except.error ("Command failed with error:\n" ++ out.stderr)) ∧
    (out.stderr = "" → out.stdout = "" → out.success = false →
      classifyOutput out =
        Except.error ("Command failed with no output. Exit code: " ++
          out.status_display)) ∧
    (out.stderr = "" → (out.stdout ≠ "" ∨ out.success = true) →
      classifyOutput out = Except.ok out.stdout) := by
  refine ⟨by simp [execute_command, hsplit], ?_, ?_, ?_, ?_⟩
  · intro h1 h2
    simp [classifyOutput, h1, h2]
  · intro h1 h2
    simp [classifyOutput, h1, h2]
  · intro h1 h2 h3
    simp [classifyOutput, h1, h2, h3]
  · intro h1 h2
    rcases h2 with h2 | h2 <;> simp [classifyOutput, h1, h2]

/-- Witness for C8 (amended) at a process that prints hello with empty
stderr and a successful exit status. -/
theorem classify_outcome_priority_witness :
    classifyOutput
        { stdout := "hello", stderr := "", success := true,
          status_display := "exit status: 0" } =
      Except.ok "hello" :=
  (classify_outcome_priority
    { stdout := "hello", stderr := "", success := true,
      status_display := "exit status: 0" }
    "echo hi" exRun "echo" ["hi"] (by decide)).2.2.2.2 rfl (Or.inr rfl)

/-- C6: get_settings is total; a missing settings file, an unreadable
file, and a file whose contents fail to parse as the expected shape all
produce the default settings rather than an error. -/
theorem get_settings_never_fails_defaults
    (s1 s2 s3 : SettingsState) (p : PartialAppSettings)
    (h1c : s1.cache = none) (h1f : s1.file = none)
    (h2c : s2.cache = none) (h2f : s2.file = some none)
    (h3c : s3.cache = none) (h3f : s3.file = some (some p))
    (hp : parseAppSettings p = none) :
    (get_settings s1).1 = create_default_settings ∧
    (get_settings s2).1 = create_default_settings ∧
    (get_settings s3).1 = create_default_settings := by
  refine ⟨?_, ?_, ?_⟩
  · simp [get_settings, h1c, h1f, loadSettingsFile]
  · simp [get_settings, h2c, h2f, loadSettingsFile]
  · simp [get_settings, h3c, h3f, loadSettingsFile, hp]

/-- Witness for C6 at a missing file. -/
theorem get_settings_never_fails_defaults_witness :
    (get_settings { cache := none, file := none }).1 =
      create_default_settings :=
  (get_settings_never_fails_defaults
    { cache := none, file := none }
    { cache := none, file := some none }
    { cache := none, file := some (some exPartialSettings) }
    exPartialSettings rfl rfl rfl rfl rfl rfl (by decide)).1

/-- C5 counterexample: a settings object carrying an openai key but no
theme field parses to nothing, so get_settings returns the full defaults
and the present openai key value is discarded rather than kept. -/
theorem settings_partial_fields_counterexample :
    parseAppSettings exPartialSettings = none ∧
    (get_settings
        { cache := none, file := some (some exPartialSettings) }).1.openai_api_key =
      "" ∧
    exPartialSettings.openai_api_key = some "sk-test" ∧
    ("sk-test" : String) ≠ "" := by
  decide

/-- C5 (amended): when the settings JSON object is missing any field,
deserialization of the whole object fails and get_settings returns the
complete default settings, discarding the fields that are present;
field values are preserved only when every field is present. -/
theorem settings_parse_all_or_nothing
    (p : PartialAppSettings) (v : AppSettings) (hp : ¬ p.complete) :
    parseAppSettings p = none ∧
    (get_settings { cache := none, file := some (some p) }).1 =
      create_default_settings ∧
    parseAppSettings (AppSettings.toPartial v) = some v := by
  have hnone : parseAppSettings p = none := by
    cases h : parseAppSettings p with
    | none => rfl
    | some w => exact absurd (complete_of_parse p w h) hp
  refine ⟨hnone, ?_, ?_⟩
  · simp [get_settings, loadSettingsFile, hnone]
  · rfl

/-- Witness for C5 (amended) at the object missing its theme field. -/
theorem settings_parse_all_or_nothing_witness :
    parseAppSettings exPartialSettings = none :=
  (settings_parse_all_or_nothing exPartialSettings create_default_settings
    (by decide)).1

/-- C1 counterexample: loading chats from a file whose records carry
ascending timestamps returns a sorted copy but stores the unsorted list
in the cache, so the second call, served from the cache, returns an
adjacent pair with timestamp 1 before timestamp 2, violating descending
order. -/
theorem get_all_cached_unsorted_counterexample :
    (get_all_chats ((get_all_chats
        { cache := [], file := some (some [exChatA, exChatB]) }).2.1)).1 =
      [exChatA, exChatB] ∧
    ¬ (exChatB.timestamp ≤ exChatA.timestamp) := by
  decide

/-- C1 (amended): a get_all_chats or get_all_folders call that loads from
disk returns a sequence sorted by timestamp descending, whatever the
order of the records in the file; a call served from the non-empty
in-memory cache returns the cached list verbatim, which is not re-sorted
on that path. -/
theorem get_all_sorted_fresh_cache_verbatim
    (s1 s2 : ChatsState) (t1 t2 : FoldersState)
    (h1 : s1.cache = []) (h2 : s2.cache ≠ [])
    (h3 : t1.cache = []) (h4 : t2.cache ≠ []) :
    (get_all_chats s1).1.Pairwise (fun a b => b.timestamp ≤ a.timestamp) ∧
    get_all_chats s2 = (s2.cache, s2, false) ∧
    (get_all_folders t1).1.Pairwise (fun a b => b.timestamp ≤ a.timestamp) ∧
    get_all_folders t2 = (t2.cache, t2, false) := by
  refine ⟨?_, ?_, ?_, ?_⟩
  · simp only [get_all_chats, h1, List.isEmpty_nil, if_true]
    exact pairwise_sortByTsDesc _ _
  · simp [get_all_chats, List.isEmpty_iff, h2]
  · simp only [get_all_folders, h3, List.isEmpty_nil, if_true]
    exact pairwise_sortByTsDesc _ _
  · simp [get_all_folders, List.isEmpty_iff, h4]

/-- Witness for C1 (amended): the fresh load of an out-of-order file
returns a descending sequence. -/
theorem get_all_sorted_fresh_witness :
    (get_all_chats
        { cache := [], file := some (some [exChatA, exChatB]) }).1.Pairwise
      (fun a b => b.timestamp ≤ a.timestamp) :=
  (get_all_sorted_fresh_cache_verbatim
    { cache := [], file := some (some [exChatA, exChatB]) }
    { cache := [exChatA], file := none }
    { cache := [], file := none }
    { cache := [exFolderA], file := none }
    rfl (by decide) rfl (by decide)).1

/-- C2: on a collection with pairwise distinct ids, saving the same chat
or folder twice leaves exactly one record with that id, equal to the
item passed in, and ids stay pairwise distinct. -/
theorem save_upsert_idempotent
    (s : ChatsState) (chat : RustSavedChat) (d1 d2 : Bool) (m1 m2 : String)
    (t : FoldersState) (folder : RustFolder) (e1 e2 : Bool) (n1 n2 : String)
    (hs : s.cache.Pairwise (fun a b => a.id ≠ b.id))
    (ht : t.cache.Pairwise (fun a b => a.id ≠ b.id)) :
    (List.countP (fun c => decide (c.id = chat.id))
        ((save_chat chat d2 m2 (save_chat chat d1 m1 s).2).2).cache = 1 ∧
      (∀ c ∈ ((save_chat chat d2 m2 (save_chat chat d1 m1 s).2).2).cache,
        c.id = chat.id → c = chat) ∧
      ((save_chat chat d2 m2 (save_chat chat d1 m1 s).2).2).cache.Pairwise
        (fun a b => a.id ≠ b.id)) ∧
    (List.countP (fun f => decide (f.id = folder.id))
        ((save_folder folder e2 n2 (save_folder folder e1 n1 t).2).2).cache = 1 ∧
      (∀ f ∈ ((save_folder folder e2 n2 (save_folder folder e1 n1 t).2).2).cache,
        f.id = folder.id → f = folder) ∧
      ((save_folder folder e2 n2 (save_folder folder e1 n1 t).2).2).cache.Pairwise
        (fun a b => a.id ≠ b.id)) := by
  constructor
  · rw [save_chat_cache, save_chat_cache]
    exact saveStep_props (fun c => c.id) (fun c => c.timestamp) chat _
      (saveStep_props (fun c => c.id) (fun c => c.timestamp) chat s.cache hs).2.2
  · rw [save_folder_cache, save_folder_cache]
    exact saveStep_props (fun f => f.id) (fun f => f.timestamp) folder _
      (saveStep_props (fun f => f.id) (fun f => f.timestamp) folder t.cache ht).2.2

/-- Witness for C2: saving the same chat twice into the empty collection
leaves exactly one record with its id. -/
theorem save_upsert_idempotent_witness :
    List.countP (fun c => decide (c.id = exChatA.id))
        ((save_chat exChatA true "" (save_chat exChatA true ""
          { cache := [], file := none }).2).2).cache = 1 :=
  (save_upsert_idempotent { cache := [], file := none } exChatA true true "" ""
    { cache := [], file := none } exFolderA true true "" ""
    List.Pairwise.nil List.Pairwise.nil).1.1

/-- C3: deleting an id that no cached record carries returns the
not-found error, performs no disk write, and leaves the state (cache and
file) unchanged, for chats and folders alike. -/
theorem delete_missing_id_noop
    (s : ChatsState) (cid : String) (d : Bool) (m : String)
    (t : FoldersState) (fid : String) (e : Bool) (n : String)
    (hs : ∀ c ∈ s.cache, c.id ≠ cid) (ht : ∀ f ∈ t.cache, f.id ≠ fid) :
    delete_chat cid d m s =
      (Except.error ("Chat with ID " ++ cid ++ " not found"), s, false) ∧
    delete_folder fid e n t =
      (Except.error ("Folder with ID " ++ fid ++ " not found"), t, false) := by
  have h1 : s.cache.filter (fun c => decide (c.id ≠ cid)) = s.cache :=
    List.filter_eq_self.mpr (fun a ha => by simpa using hs a ha)
  have h2 : t.cache.filter (fun f => decide (f.id ≠ fid)) = t.cache :=
    List.filter_eq_self.mpr (fun a ha => by simpa using ht a ha)
  constructor
  · simp only [delete_chat, h1]
    rw [if_pos trivial]
  · simp only [delete_folder, h2]
    rw [if_pos trivial]

/-- Witness for C3 at ids carried by no record. -/
theorem delete_missing_id_noop_witness :
    delete_chat "zzz" true "io" { cache := [exChatA], file := none } =
      (Except.error ("Chat with ID " ++ "zzz" ++ " not found"),
        { cache := [exChatA], file := none }, false) :=
  (delete_missing_id_noop { cache := [exChatA], file := none } "zzz" true "io"
    { cache := [exFolderA], file := none } "yyy" true "io"
    (by decide) (by decide)).1

/-- C4 counterexample: a get_all_chats populates the cache with one chat;
deleting that chat empties the cache; the next get_all_chats then invokes
the disk loader again (third component true) although the cache had been
populated, because the cache-hit test is non-emptiness. -/
theorem get_all_reload_after_empty_counterexample :
    ((get_all_chats { cache := [], file := some (some [exChatA]) }).2.1).cache =
      [exChatA] ∧
    (delete_chat "a" true ""
        (get_all_chats { cache := [], file := some (some [exChatA]) }).2.1).1 =
      Except.ok () ∧
    (get_all_chats
        (delete_chat "a" true ""
          (get_all_chats
            { cache := [], file := some (some [exChatA]) }).2.1).2.1).2.2 =
      true := by
  refine ⟨by rfl, by rfl, by rfl⟩

/-- C4 (amended): once get_settings has run, the settings cache holds the
returned value and every further get_settings is served from the cache
without the loader; for the chats and folders collections, a call is
served from the cache without the loader exactly while the cache is
non-empty, so an emptied cache triggers a disk load again. -/
theorem cache_hit_semantics
    (s0 s : SettingsState) (v : AppSettings) (t : ChatsState)
    (u : FoldersState) (hv : s.cache = some v) (ht : t.cache ≠ [])
    (hu : u.cache ≠ []) :
    ((get_settings s0).2.1).cache = some ((get_settings s0).1) ∧
    get_settings s = (v, s, false) ∧
    get_all_chats t = (t.cache, t, false) ∧
    get_all_folders u = (u.cache, u, false) := by
  refine ⟨?_, ?_, ?_, ?_⟩
  · cases h : s0.cache <;> simp [get_settings, h]
  · simp [get_settings, hv]
  · simp [get_all_chats, List.isEmpty_iff, ht]
  · simp [get_all_folders, List.isEmpty_iff, hu]

/-- Witness for C4 (amended): a non-empty chats cache is served without
the loader. -/
theorem cache_hit_semantics_witness :
    get_all_chats { cache := [exChatA], file := none } =
      ([exChatA], { cache := [exChatA], file := none }, false) :=
  (cache_hit_semantics { cache := none, file := none }
    { cache := some create_default_settings, file := none }
    create_default_settings { cache := [exChatA], file := none }
    { cache := [exFolderA], file := none } rfl (by decide) (by decide)).2.2.1

/-- C7: every save updates the in-memory cache before attempting
persistence, so when the disk write fails the error is returned but a
subsequent read observes the newly saved value, for settings, chats and
folders. -/
theorem save_updates_cache_despite_write_failure
    (s : SettingsState) (v : AppSettings) (m1 : String)
    (t : ChatsState) (chat : RustSavedChat) (m2 : String)
    (u : FoldersState) (folder : RustFolder) (m3 : String) :
    (save_settings v false m1 s).1 =
      Except.error ("Failed to write settings file: " ++ m1) ∧
    (get_settings (save_settings v false m1 s).2).1 = v ∧
    (save_chat chat false m2 t).1 =
      Except.error ("Failed to write chats file: " ++ m2) ∧
    chat ∈ (get_all_chats (save_chat chat false m2 t).2).1 ∧
    (save_folder folder false m3 u).1 =
      Except.error ("Failed to write folders file: " ++ m3) ∧
    folder ∈ (get_all_folders (save_folder folder false m3 u).2).1 := by
  have hmemc : chat ∈ ((save_chat chat false m2 t).2).cache := by
    rw [save_chat_cache]
    exact (sortByTsDesc_perm _ _).mem_iff.mpr
      (self_mem_upsertBy (fun c => c.id) chat t.cache)
  have hmemf : folder ∈ ((save_folder folder false m3 u).2).cache := by
    rw [save_folder_cache]
    exact (sortByTsDesc_perm _ _).mem_iff.mpr
      (self_mem_upsertBy (fun f => f.id) folder u.cache)
  refine ⟨rfl, rfl, rfl, ?_, rfl, ?_⟩
  · simp only [get_all_chats]
    rw [if_neg (by simpa [List.isEmpty_iff] using List.ne_nil_of_mem hmemc)]
    exact hmemc
  · simp only [get_all_folders]
    rw [if_neg (by simpa [List.isEmpty_iff] using List.ne_nil_of_mem hmemf)]
    exact hmemf

/-- C10: delete_chat and delete_folder remove every record whose id
equals the given id, not only the first match, and the remaining records
keep their original relative order (the surviving cache is a sublist of
the original, with the multiplicity of every non-matching record
preserved). -/
theorem delete_removes_all_matching_preserves_order
    (s : ChatsState) (cid : String) (d : Bool) (m : String)
    (t : FoldersState) (fid : String) (e : Bool) (n : String) :
    ((∀ x ∈ ((delete_chat cid d m s).2.1).cache, x.id ≠ cid) ∧
      ((delete_chat cid d m s).2.1).cache.Sublist s.cache ∧
      (∀ x : RustSavedChat, x.id ≠ cid →
        List.countP (fun y => decide (y = x))
            ((delete_chat cid d m s).2.1).cache =
          List.countP (fun y => decide (y = x)) s.cache)) ∧
    ((∀ x ∈ ((delete_folder fid e n t).2.1).cache, x.id ≠ fid) ∧
      ((delete_folder fid e n t).2.1).cache.Sublist t.cache ∧
      (∀ x : RustFolder, x.id ≠ fid →
        List.countP (fun y => decide (y = x))
            ((delete_folder fid e n t).2.1).cache =
          List.countP (fun y => decide (y = x)) t.cache)) := by
  constructor
  · rw [delete_chat_cache]
    exact filterById_props (fun c => c.id) cid s.cache
  · rw [delete_folder_cache]
    exact filterById_props (fun f => f.id) fid t.cache

/-- Witness for C10: deleting one id in a two-chat collection preserves
the multiplicity of the record with the other id. -/
theorem delete_removes_all_matching_preserves_order_witness :
    List.countP (fun y => decide (y = exChatB))
        ((delete_chat "a" true ""
          { cache := [exChatA, exChatB], file := none }).2.1).cache =
      List.countP (fun y => decide (y = exChatB)) [exChatA, exChatB] :=
  ((delete_removes_all_matching_preserves_order
    { cache := [exChatA, exChatB], file := none } "a" true ""
    { cache := [exFolderA], file := none } "zz" true "").1).2.2
    exChatB (by decide)

end AIT
